/-
Verification of the roadmap layout engine of `create_roadmap_from_excel.py`.

The layout function `create_roadmap_from_data` is embedded as a pure Lean
function from an in-memory data model (mirroring the Excel sheets read by
`load_excel_data`) to an ordered list of abstract draw commands, one per
shape the source places on the slide.  Lengths are rational numbers measured
in inches (the source converts inches to integer EMUs via `Inches`, which is
exact for the arithmetic performed here); colors are RGB byte triples.
-/
import Mathlib

set_option autoImplicit false

namespace Roadmap

/-- An RGB color, as produced by `RGBColor` in the source. -/
structure RGB where
  r : ℕ
  g : ℕ
  b : ℕ
deriving DecidableEq

/-- Paragraph alignment (`PP_ALIGN`); only LEFT (default) and CENTER occur. -/
inductive Align where
  | left
  | center
deriving DecidableEq

/-- One abstract draw command: a filled rectangle (`add_rectangle` or a raw
`add_shape` rectangle), a text box (`add_text_box`), or a triangle milestone
marker (`add_triangle_milestone`).  Coordinates and sizes are in inches. -/
inductive DrawCmd where
  | rect (left top width height : ℚ) (fill : Option RGB) (line : Option RGB)
  | text (left top width height : ℚ) (str : String) (fontSize : ℚ)
      (bold italic : Bool) (fontColor : Option RGB) (fillColor : Option RGB)
      (align : Align)
  | triangle (left top size : ℚ) (color : RGB)
deriving DecidableEq

/-- Value of one hex digit (`int(c, 16)`); unparseable characters are read
as 0 (the source would raise `ValueError` there, a case no claim touches). -/
def hexVal (c : Char) : ℕ :=
  if c.isDigit then c.toNat - 48
  else if 'a' ≤ c ∧ c ≤ 'f' then c.toNat - 87
  else if 'A' ≤ c ∧ c ≤ 'F' then c.toNat - 55
  else 0

/-- Value of a two-hex-digit byte, e.g. `int(hex_color[0:2], 16)`. -/
def byteVal : List Char → ℕ
  | a :: b :: _ => 16 * hexVal a + hexVal b
  | _ => 0

/-- Source `hex_to_rgb`: strip leading `#` characters, then read three byte pairs. -/
def hex_to_rgb (s : String) : RGB :=
  let cs := s.toList.dropWhile (fun c => c = '#')
  ⟨byteVal cs, byteVal (cs.drop 2), byteVal (cs.drop 4)⟩

/-- Python `settings.get(key, default)` over the Settings sheet key/value pairs. -/
def settingsGet (settings : List (String × String)) (key dflt : String) : String :=
  ((settings.find? (fun p => p.1 = key)).map (fun p => p.2)).getD dflt

/-- One Timeline sheet row: `Year`, `Width (inches)`, `Is Last Column`. -/
structure TimelineEntry where
  year : String
  widthInches : ℚ
  isLastColumn : String
deriving DecidableEq

/-- One Goals sheet row: `Goal ID`, `Goal Name`. -/
structure Goal where
  goalId : ℤ
  goalName : String
deriving DecidableEq

/-- One Rows sheet row. -/
structure RowRec where
  rowId : ℤ
  stcLabel : String
  ftaLabel : String
  backgroundColor : String
  goalId : ℤ
  rowHeight : ℚ
deriving DecidableEq

/-- One Milestones sheet row.  `isCritical` is the raw cell text, compared
lower-cased against `"yes"` by the source. -/
structure Milestone where
  rowId : ℤ
  year : ℤ
  verticalOffset : ℚ
  text : String
  isCritical : String
deriving DecidableEq

/-- One UseCases sheet row. -/
structure UseCase where
  useCaseId : String
  description : String
  color : String
deriving DecidableEq

/-- The whole in-memory data model handed to `create_roadmap_from_data`. -/
structure RoadmapData where
  settings : List (String × String)
  timeline : List TimelineEntry
  goals : List Goal
  rows : List RowRec
  milestones : List Milestone
  usecases : List UseCase
deriving DecidableEq

/-- The named colors parsed from Settings (with the source's defaults). -/
structure Colors where
  navy : RGB
  pink : RGB
  purple : RGB
  yellow : RGB
  milestone : RGB
  critical : RGB
  nearTerm : RGB
  midTerm : RGB
  farTerm : RGB
  tanBox : RGB
deriving DecidableEq

/-- The `colors` dictionary built at the top of `create_roadmap_from_data`. -/
def colorsOf (settings : List (String × String)) : Colors where
  navy := hex_to_rgb (settingsGet settings "Navy Color" "1A1A4E")
  pink := hex_to_rgb (settingsGet settings "Pink Background" "FFE0E0")
  purple := hex_to_rgb (settingsGet settings "Purple Background" "E0D8F0")
  yellow := hex_to_rgb (settingsGet settings "Yellow Background" "FFF0D0")
  milestone := hex_to_rgb (settingsGet settings "Milestone Color" "F0C040")
  critical := hex_to_rgb (settingsGet settings "Critical Text Color" "CC0000")
  nearTerm := hex_to_rgb (settingsGet settings "Near Term Color" "555555")
  midTerm := hex_to_rgb (settingsGet settings "Mid Term Color" "C8A080")
  farTerm := hex_to_rgb (settingsGet settings "Far Term Color" "E8D8C8")
  tanBox := hex_to_rgb "C0A080"

/-- Source `bg_color_map.get(name, colors["pink"])`: the three recognized
keys, anything else falling back to pink. -/
def bgColorMap (c : Colors) (name : String) : RGB :=
  if name = "pink" then c.pink
  else if name = "purple" then c.purple
  else if name = "yellow" then c.yellow
  else c.pink

/-- Slide width `Inches(13.333)`. -/
def slideWidth : ℚ := 13.333

/-- Slide height `Inches(7.5)`. -/
def slideHeight : ℚ := 7.5

/-- Constant `header_top = Inches(0.6)`. -/
def headerTop : ℚ := 0.6

/-- Constant `header_height = Inches(0.3)`. -/
def headerHeight : ℚ := 0.3

/-- Constant `left_margin = Inches(1.4)`. -/
def leftMargin : ℚ := 1.4

/-- Constant `stc_width = Inches(0.4)`. -/
def stcWidth : ℚ := 0.4

/-- Constant `fta_width = Inches(1.0)`. -/
def ftaWidth : ℚ := 1

/-- White text color `RGBColor(255,255,255)`. -/
def white : RGB := ⟨255, 255, 255⟩

/-- Neutral gray text color `RGBColor(0x33,0x33,0x33)`. -/
def gray33 : RGB := ⟨0x33, 0x33, 0x33⟩

/-- Gridline color `RGBColor(0xcc,0xcc,0xcc)`. -/
def gridGray : RGB := ⟨0xcc, 0xcc, 0xcc⟩

/-- Slide background color `RGBColor(0xe0,0xe0,0xd0)`. -/
def bgBeige : RGB := ⟨0xe0, 0xe0, 0xd0⟩

/-- The characters before the first dash (all of them if none occurs). -/
def leadingYearChars : List Char → List Char
  | [] => []
  | c :: cs => if c = '-' then [] else c :: leadingYearChars cs

/-- Source `year.split("-")[0]`: the leading year of a (possibly ranged)
label, i.e. the prefix of the label before its first dash. -/
def leadingYear (label : String) : String :=
  ⟨leadingYearChars label.toList⟩

/-- Python `str.lower()` (ASCII case folding, which covers every key the
source compares lower-cased). -/
def lowerStr (s : String) : String :=
  ⟨s.toList.map Char.toLower⟩

/-- Python-dict insertion into an association list: overwriting an existing
key keeps its position, a new key is appended (insertion order). -/
def dictInsert (d : List (String × ℚ)) (k : String) (v : ℚ) : List (String × ℚ) :=
  if d.any (fun p => p.1 = k) then
    d.map (fun p => if p.1 = k then (k, v) else p)
  else d ++ [(k, v)]

/-- Python-dict lookup `d.get(k)` over the association list. -/
def dictGet (d : List (String × ℚ)) (k : String) : Option ℚ :=
  (d.find? (fun p => p.1 = k)).map (fun p => p.2)

/-- Source `list(year_positions.values())[-1]`, defaulting to 0 on an empty
dict (where the source raises `IndexError`; no claim exercises that case). -/
def lastPosition (d : List (String × ℚ)) : ℚ :=
  ((d.map Prod.snd).getLast?).getD 0

/-- The timeline-header loop: walking the Timeline entries in order from
start offset `x`, emit each column's navy rectangle and centered label,
record `x` in `year_positions` keyed by the label's leading year, and
advance `x` by the entry's width.  Returns the draw commands, the final
`year_positions` dictionary, and the final `x`. -/
def buildTimeline (navy : RGB) (d : List (String × ℚ)) (x : ℚ) :
    List TimelineEntry → List DrawCmd × List (String × ℚ) × ℚ
  | [] => ([], d, x)
  | e :: es =>
    let rest := buildTimeline navy (dictInsert d (leadingYear e.year) x)
      (x + e.widthInches) es
    (DrawCmd.rect x headerTop e.widthInches headerHeight (some navy) none ::
      DrawCmd.text x headerTop e.widthInches headerHeight e.year 9 true false
        (some white) none Align.center :: rest.1,
     rest.2.1, rest.2.2)

/-- The milestone x-placement rule of the row loop: an exact `year_positions`
key gives that column's x plus `Inches(0.15)`; otherwise a year `>= 2029`
falls back to the column keyed `"2029"` (or the last recorded position)
plus `Inches(0.3)`; otherwise the milestone is skipped (`continue`). -/
def placeMilestoneX (positions : List (String × ℚ)) (year : ℤ) : Option ℚ :=
  match dictGet positions (toString year) with
  | some px => some (px + 0.15)
  | none =>
    if 2029 ≤ year then
      some ((dictGet positions "2029").getD (lastPosition positions) + 0.3)
    else none

/-- Source `str(ms["Is Critical"]).lower() == "yes"`. -/
def isCriticalMs (m : Milestone) : Bool :=
  lowerStr m.isCritical = "yes"

/-- The commands emitted for one milestone of a row whose top is `top`:
nothing when the year is unplaceable, else a triangle marker and its text. -/
def milestoneCmds (c : Colors) (positions : List (String × ℚ)) (top : ℚ)
    (m : Milestone) : List DrawCmd :=
  match placeMilestoneX positions m.year with
  | none => []
  | some x =>
    let y := top + m.verticalOffset
    [DrawCmd.triangle x y 0.12 c.milestone,
     DrawCmd.text (x + 0.14) y 0.9 0.15 m.text 7 false false
       (some (if isCriticalMs m then c.critical else gray33)) none Align.left]

/-- The two commands closing an STC run: the navy cell rectangle from
`stc_start_top` with the computed height, and its centered label. -/
def stcCellCmds (navy : RGB) (label : String) (top height : ℚ) : List DrawCmd :=
  [DrawCmd.rect 0 top stcWidth height (some navy) none,
   DrawCmd.text 0.02 (top + height / 2 - 0.1) (stcWidth - 0.04) 0.25 label 9
     true false (some white) none Align.center]

/-- The mutable STC-run state of the row loop: `current_stc`,
`stc_start_top`, `stc_row_count`. -/
structure StcState where
  currentStc : Option String
  stcStartTop : ℚ
  stcRowCount : ℕ
deriving DecidableEq

/-- Closing the previous STC run when the incoming row's label differs:
nothing on the first row or when the label is unchanged; otherwise the
closed cell, whose height the source computes as the INCOMING row's height
times the run length. -/
def stcCloseCmds (c : Colors) (st : StcState) (r : RowRec) : List DrawCmd :=
  if st.currentStc = some r.stcLabel then []
  else
    match st.currentStc with
    | some lbl =>
      if 0 < st.stcRowCount then
        stcCellCmds c.navy lbl st.stcStartTop (r.rowHeight * (st.stcRowCount : ℚ))
      else []
    | none => []

/-- The STC-state transition of one row iteration. -/
def stcStep (st : StcState) (top : ℚ) (r : RowRec) : StcState :=
  if st.currentStc = some r.stcLabel then
    { st with stcRowCount := st.stcRowCount + 1 }
  else ⟨some r.stcLabel, top, 1⟩

/-- The milestone commands of one row: every Milestones entry matching the
row's id, in sheet order. -/
def rowMilestoneCmds (c : Colors) (positions : List (String × ℚ))
    (milestones : List Milestone) (top : ℚ) (r : RowRec) : List DrawCmd :=
  (milestones.filter (fun m => m.rowId = r.rowId)).flatMap
    (milestoneCmds c positions top)

/-- The row loop of one goal block.  For each row in order: close the
previous STC run if the label changed, draw the FTA cell, the grid
background, one gridline per `year_positions` entry, and the row's
milestones, then advance the cursor by the row's height.  Returns the
commands, the final cursor, and the final STC state. -/
def processRows (c : Colors) (positions : List (String × ℚ))
    (totalGridWidth : ℚ) (milestones : List Milestone) (top : ℚ)
    (st : StcState) : List RowRec → List DrawCmd × ℚ × StcState
  | [] => ([], top, st)
  | r :: rs =>
    let bg := bgColorMap c (lowerStr r.backgroundColor)
    let rowCmds :=
      stcCloseCmds c st r ++
      [DrawCmd.rect stcWidth top ftaWidth r.rowHeight (some c.navy) none,
       DrawCmd.text (stcWidth + 0.25) (top + r.rowHeight / 2 - 0.1) 0.5 0.25
         r.ftaLabel 11 true false (some white) none Align.center,
       DrawCmd.rect leftMargin top (totalGridWidth + 1) r.rowHeight (some bg) none] ++
      positions.map (fun p =>
        DrawCmd.rect p.2 top (1 / 72) r.rowHeight (some gridGray) none) ++
      rowMilestoneCmds c positions milestones top r
    let rest := processRows c positions totalGridWidth milestones
      (top + r.rowHeight) (stcStep st top r) rs
    (rowCmds ++ rest.1, rest.2.1, rest.2.2)

/-- The goal loop: for each goal, a centered header, a 0.3-inch advance,
the goal's rows, then the final STC close for the block (whose height the
source computes as the goal's FIRST row's height times the run length). -/
def processGoals (c : Colors) (positions : List (String × ℚ))
    (totalGridWidth : ℚ) (rows : List RowRec) (milestones : List Milestone)
    (top : ℚ) : List Goal → List DrawCmd × ℚ
  | [] => ([], top)
  | g :: gs =>
    let headerCmd := DrawCmd.text 0 top slideWidth 0.25 g.goalName 12 true true
      none none Align.center
    let goalRows := rows.filter (fun r => r.goalId = g.goalId)
    let res := processRows c positions totalGridWidth milestones (top + 0.3)
      ⟨none, top + 0.3, 0⟩ goalRows
    let finalCmds :=
      match res.2.2.currentStc with
      | some lbl =>
        if 0 < res.2.2.stcRowCount then
          stcCellCmds c.navy lbl res.2.2.stcStartTop
            (((goalRows.head?.map (fun r => r.rowHeight)).getD 0) *
              (res.2.2.stcRowCount : ℚ))
        else []
      | none => []
    let rest := processGoals c positions totalGridWidth rows milestones
      res.2.1 gs
    (headerCmd :: (res.1 ++ finalCmds ++ rest.1), rest.2)

/-- The three near/mid/far term band rectangles with their labels. -/
def termArrowCmds (c : Colors) (arrowTop : ℚ) : List DrawCmd :=
  [DrawCmd.rect leftMargin arrowTop 2.4 0.35 (some c.nearTerm) none,
   DrawCmd.text leftMargin arrowTop 2.4 0.35 "Near Term" 11 true true
     (some white) none Align.center,
   DrawCmd.rect (leftMargin + 2.3) arrowTop 2 0.35 (some c.midTerm) none,
   DrawCmd.text (leftMargin + 2.3) arrowTop 2 0.35 "Mid Term" 11 true true
     (some white) none Align.center,
   DrawCmd.rect (leftMargin + 4.2) arrowTop 3.4 0.35 (some c.farTerm) none,
   DrawCmd.text (leftMargin + 4.2) arrowTop 3.4 0.35 "Far Term" 11 true true
     (some gray33) none Align.center]

/-- Constant `legend_left = Inches(0.3)`. -/
def legendLeft : ℚ := 0.3

/-- Constant `uc_left = legend_left + Inches(1.6)`. -/
def ucLeft : ℚ := legendLeft + 1.6

/-- Constant `uc_indicator_left = uc_left + Inches(1.7)`. -/
def ucIndicatorLeft : ℚ := ucLeft + 1.7

/-- The per-UseCase legend indicators, stacked at a 0.2-inch pitch. -/
def ucIndicatorCmds (legendTop : ℚ) : ℕ → List UseCase → List DrawCmd
  | _, [] => []
  | i, u :: us =>
    DrawCmd.triangle ucIndicatorLeft (legendTop + 0.2 + (i : ℚ) * 0.2) 0.1
      (hex_to_rgb u.color) ::
    DrawCmd.text (ucIndicatorLeft + 0.12) (legendTop + 0.2 + (i : ℚ) * 0.2)
      1.2 0.12 u.useCaseId 6 false false none none Align.left ::
    ucIndicatorCmds legendTop (i + 1) us

/-- The fixed legend block plus the UseCase indicators. -/
def legendCmds (c : Colors) (legendTop : ℚ) (usecases : List UseCase) :
    List DrawCmd :=
  [DrawCmd.text legendLeft legendTop 1 0.2 "LEGEND" 8 true true none none
     Align.left,
   DrawCmd.rect legendLeft (legendTop + 0.2) 1.3 0.2 (some c.tanBox) none,
   DrawCmd.text legendLeft (legendTop + 0.2) 1.3 0.2
     "Strategic Test Capability" 7 false false (some white) none Align.center,
   DrawCmd.rect legendLeft (legendTop + 0.45) 1.3 0.2 (some c.navy) none,
   DrawCmd.text legendLeft (legendTop + 0.45) 1.3 0.2 "Functional Test Area"
     7 false false (some white) none Align.center,
   DrawCmd.triangle legendLeft (legendTop + 0.7) 0.12 c.milestone,
   DrawCmd.text (legendLeft + 0.15) (legendTop + 0.7) 1 0.15 "Key Milestone"
     7 false false none none Align.left,
   DrawCmd.text ucLeft (legendTop + 0.2) 1.5 0.15 "Use Cases:" 7 true false
     none none Align.left,
   DrawCmd.text ucLeft (legendTop + 0.35) 1.5 0.15 "UC1 – Use case 1 text"
     7 false false none none Align.left,
   DrawCmd.text ucLeft (legendTop + 0.5) 1.5 0.15 "UC2 – Use case 2 text"
     7 false false none none Align.left,
   DrawCmd.text ucLeft (legendTop + 0.65) 1.5 0.15 "UC3 – Use case 3 text"
     7 false false none none Align.left,
   DrawCmd.text ucLeft (legendTop + 0.8) 1.5 0.15 "UC4 – Use case 4 text"
     7 false false none none Align.left] ++
  ucIndicatorCmds legendTop 0 usecases

/-- The whole layout pass `create_roadmap_from_data`: background, title,
"Fiscal Years" header, timeline columns, goal blocks with rows and
milestones, term bands, and the legend, as one ordered command list. -/
def create_roadmap_from_data (data : RoadmapData) : List DrawCmd :=
  let c := colorsOf data.settings
  let title := settingsGet data.settings "Title" "Roadmap"
  let tl := buildTimeline c.navy [] (leftMargin + 1) data.timeline
  let totalGridWidth := tl.2.2 - leftMargin - 1
  let goalsRes := processGoals c tl.2.1 totalGridWidth data.rows
    data.milestones 0.95 data.goals
  let arrowTop := goalsRes.2 + 0.1
  let legendTop := arrowTop + 0.5
  DrawCmd.rect 0 0 slideWidth slideHeight (some bgBeige) none ::
  DrawCmd.text 0 0.15 slideWidth 0.5 title 24 true true none none
    Align.center ::
  DrawCmd.rect leftMargin headerTop 1 headerHeight (some c.navy) none ::
  DrawCmd.text leftMargin headerTop 1 headerHeight "Fiscal Years →" 9 true
    false (some white) none Align.center ::
  (tl.1 ++ goalsRes.1 ++ termArrowCmds c arrowTop ++ legendCmds c legendTop
    data.usecases)

/-! ### Derived views and specification-side definitions -/

/-- Specification-side view of the timeline walk: each entry paired with the
x-offset at which its column is placed, keyed by its label's leading year. -/
def columnAssoc (x : ℚ) : List TimelineEntry → List (String × ℚ)
  | [] => []
  | e :: es => (leadingYear e.year, x) :: columnAssoc (x + e.widthInches) es

/-- The left x-offsets of the filled rectangles in a command list. -/
def rectLefts (cmds : List DrawCmd) : List ℚ :=
  cmds.filterMap fun cmd =>
    match cmd with
    | DrawCmd.rect l _ _ _ _ _ => some l
    | _ => none

/-- Specification-side view of the vertical cursor: each row of a block
paired as (top, height), the next top being the previous top plus height. -/
def rowBands (t : ℚ) : List RowRec → List (ℚ × ℚ)
  | [] => []
  | r :: rs => (t, r.rowHeight) :: rowBands (t + r.rowHeight) rs

/-- The (top, height) of every filled rectangle drawn at the grid's left
margin; in the row loop these are exactly the per-row background rects. -/
def gridBgRects (cmds : List DrawCmd) : List (ℚ × ℚ) :=
  cmds.filterMap fun cmd =>
    match cmd with
    | DrawCmd.rect l t _ h _ _ => if l = leftMargin then some (t, h) else none
    | _ => none

/-- The (top, height) of every filled rectangle drawn at x = 0 with the STC
column width: exactly the merged STC label cells. -/
def stcCellRects (cmds : List DrawCmd) : List (ℚ × ℚ) :=
  cmds.filterMap fun cmd =>
    match cmd with
    | DrawCmd.rect l t w h _ _ =>
      if l = 0 ∧ w = stcWidth then some (t, h) else none
    | _ => none

/-- The left x-offsets of the triangle markers in a command list. -/
def triangleLefts (cmds : List DrawCmd) : List ℚ :=
  cmds.filterMap fun cmd =>
    match cmd with
    | DrawCmd.triangle l _ _ _ => some l
    | _ => none

/-- The top y-offsets of the triangle markers in a command list. -/
def triangleTops (cmds : List DrawCmd) : List ℚ :=
  cmds.filterMap fun cmd =>
    match cmd with
    | DrawCmd.triangle _ t _ _ => some t
    | _ => none

/-- Decimal value of a digit string (used only to read year labels when
stating the spec's overflow-threshold rule). -/
def parseNatChars : List Char → ℕ → ℕ
  | [], acc => acc
  | c :: cs, acc => parseNatChars cs (10 * acc + (c.toNat - 48))

/-- The integer value of a label's leading year. -/
def yearInt (label : String) : ℤ :=
  (parseNatChars (leadingYear label).toList 0 : ℤ)

/-- Modelled from the spec (§4.1): the overflow threshold year is the
leading year of the timeline entry flagged as the overflow column, or, if
none is flagged, the leading year of the last entry.  The source has no
such computation; this definition exists only to state claim C2 as
written, for comparison with `placeMilestoneX`. -/
def specOverflowThresholdYear (timeline : List TimelineEntry) : ℤ :=
  match timeline.find? (fun e => lowerStr e.isLastColumn = "yes") with
  | some e => yearInt e.year
  | none =>
    match timeline.getLast? with
    | some e => yearInt e.year
    | none => 0

/-- Running the layout pass twice on the same immutable input. -/
def runTwice (data : RoadmapData) : List DrawCmd × List DrawCmd :=
  (create_roadmap_from_data data, create_roadmap_from_data data)

/-- A goal block whose STC runs have unequal row heights: one run of two
rows labelled A (heights 0.6 and 0.4) followed by one row labelled B
(height 0.3). -/
def rowsC1 : List RowRec :=
  [⟨1, "A", "F1", "Pink", 1, 0.6⟩, ⟨2, "A", "F2", "Pink", 1, 0.4⟩,
   ⟨3, "B", "F3", "Pink", 1, 0.3⟩]

/-- A milestone whose year 1999 lies before the earliest column (2023). -/
def msBefore : Milestone := ⟨1, 1999, 0.1, "Early goal", "No"⟩

/-- A minimal well-formed input: one column, one goal, one row. -/
def dataC4 : RoadmapData :=
  ⟨[], [⟨"2023", 0.8, "No"⟩], [⟨1, "G"⟩], [⟨1, "A", "F", "Pink", 1, 0.6⟩],
    [], []⟩

/-- Input `dataC4` plus the unplaceable milestone `msBefore`. -/
def dataC4m : RoadmapData :=
  { dataC4 with milestones := dataC4.milestones ++ [msBefore] }

/-- An input with several structural violations at once: the
overflow-flagged column is not last, one column has zero width, the goal
id 1 is duplicated, and the only row references the unknown goal id 99. -/
def dataC7 : RoadmapData :=
  ⟨[], [⟨"2029-2053", 1.8, "Yes"⟩, ⟨"2023", 0, "No"⟩], [⟨1, "G"⟩, ⟨1, "G2"⟩],
    [⟨1, "A", "F", "Pink", 99, 0.6⟩], [], []⟩

/-- A timeline whose flagged overflow column starts at year 2027, used to
compare the spec's overflow-threshold rule with the source's. -/
def timelineC2 : List TimelineEntry :=
  [⟨"2023", 0.8, "No"⟩, ⟨"2027-2040", 1.8, "Yes"⟩]

/-! ### Column resolver properties -/

theorem columnAssoc_le (tl : List TimelineEntry) : ∀ x : ℚ,
    (∀ e ∈ tl, 0 < e.widthInches) → ∀ p ∈ columnAssoc x tl, x ≤ p.2 := by
  induction tl with
  | nil => simp [columnAssoc]
  | cons e es ih =>
    intro x hw p hp
    rcases (by simpa [columnAssoc] using hp :
        p = (leadingYear e.year, x) ∨ p ∈ columnAssoc (x + e.widthInches) es) with h | h
    · simp [h]
    · have hpos : 0 < e.widthInches := hw e (by simp)
      have := ih (x + e.widthInches) (fun e' he' => hw e' (by simp [he'])) p h
      linarith

theorem columnAssoc_pairwise (tl : List TimelineEntry) : ∀ x : ℚ,
    (∀ e ∈ tl, 0 < e.widthInches) →
    ((columnAssoc x tl).map Prod.snd).Pairwise (· < ·) := by
  induction tl with
  | nil => simp [columnAssoc]
  | cons e es ih =>
    intro x hw
    have hpos : 0 < e.widthInches := hw e (by simp)
    have htail : ∀ e' ∈ es, 0 < e'.widthInches :=
      fun e' he' => hw e' (by simp [he'])
    refine List.pairwise_cons.mpr ⟨?_, by simpa [columnAssoc] using ih (x + e.widthInches) htail⟩
    intro y hy
    obtain ⟨p, hp, rfl⟩ := List.mem_map.mp hy
    have := columnAssoc_le es (x + e.widthInches) htail p hp
    linarith

theorem buildTimeline_rectLefts (n : RGB) (tl : List TimelineEntry) :
    ∀ (d : List (String × ℚ)) (x : ℚ),
    rectLefts (buildTimeline n d x tl).1 = (columnAssoc x tl).map Prod.snd := by
  induction tl with
  | nil => simp [buildTimeline, columnAssoc, rectLefts]
  | cons e es ih =>
    intro d x
    simp [buildTimeline, columnAssoc, rectLefts, List.filterMap_cons]
    simpa [rectLefts] using ih (dictInsert d (leadingYear e.year) x) (x + e.widthInches)

theorem buildTimeline_final (n : RGB) (tl : List TimelineEntry) :
    ∀ (d : List (String × ℚ)) (x : ℚ),
    (buildTimeline n d x tl).2.2 = x + (tl.map (fun e => e.widthInches)).sum := by
  induction tl with
  | nil => simp [buildTimeline]
  | cons e es ih =>
    intro d x
    simp [buildTimeline, ih (dictInsert d (leadingYear e.year) x) (x + e.widthInches)]
    ring

theorem buildTimeline_dict (n : RGB) (tl : List TimelineEntry) :
    ∀ (d : List (String × ℚ)) (x : ℚ),
    (∀ e ∈ tl, d.any (fun p => p.1 = leadingYear e.year) = false) →
    (tl.map (fun e => leadingYear e.year)).Nodup →
    (buildTimeline n d x tl).2.1 = d ++ columnAssoc x tl := by
  induction tl with
  | nil => simp [buildTimeline, columnAssoc]
  | cons e es ih =>
    intro d x hfresh hnd
    have hkey : d.any (fun p => p.1 = leadingYear e.year) = false :=
      hfresh e (by simp)
    have hins : dictInsert d (leadingYear e.year) x = d ++ [(leadingYear e.year, x)] := by
      simp [dictInsert, hkey]
    rw [List.map_cons, List.nodup_cons] at hnd
    have hndc := hnd
    have hfresh' : ∀ e' ∈ es,
        (d ++ [(leadingYear e.year, x)]).any (fun p => p.1 = leadingYear e'.year) = false := by
      intro e' he'
      have h1 : d.any (fun p => p.1 = leadingYear e'.year) = false :=
        hfresh e' (by simp [he'])
      have h2 : leadingYear e.year ≠ leadingYear e'.year := by
        intro hEq
        exact hndc.1 (hEq ▸ List.mem_map.mpr ⟨e', he', rfl⟩)
      simp [List.any_append, h1, h2]
    have := ih (d ++ [(leadingYear e.year, x)]) (x + e.widthInches) hfresh' hndc.2
    simp [buildTimeline, hins, this, columnAssoc]

/-- C5: for every timeline with all-positive widths (and distinct leading
years), the emitted column left x-offsets are strictly increasing in entry
order, the `year_positions` dictionary keys each column by its label's
leading year at that x, and the final cursor exceeds the start by exactly
the sum of the widths (the total grid width consumed). -/
theorem C5_columns_increasing_keyed_sum (n : RGB) (tl : List TimelineEntry) (x : ℚ)
    (hw : ∀ e ∈ tl, 0 < e.widthInches)
    (hnd : (tl.map (fun e => leadingYear e.year)).Nodup) :
    (rectLefts (buildTimeline n [] x tl).1).Pairwise (· < ·) ∧
    (buildTimeline n [] x tl).2.1 = columnAssoc x tl ∧
    (buildTimeline n [] x tl).2.2 = x + (tl.map (fun e => e.widthInches)).sum := by
  refine ⟨?_, ?_, buildTimeline_final n tl [] x⟩
  · rw [buildTimeline_rectLefts]
    exact columnAssoc_pairwise tl x hw
  · simpa using buildTimeline_dict n tl [] x (by simp) hnd

/-- Witness for C5 at the template's first and last timeline entries. -/
theorem C5_witness :
    (∀ e ∈ [TimelineEntry.mk "2023" 0.8 "No", TimelineEntry.mk "2029-2053" 1.8 "Yes"],
      0 < e.widthInches) ∧
    (([TimelineEntry.mk "2023" 0.8 "No", TimelineEntry.mk "2029-2053" 1.8 "Yes"].map
      (fun e => leadingYear e.year)).Nodup) ∧
    ((rectLefts (buildTimeline white []
        2.4 [TimelineEntry.mk "2023" 0.8 "No", TimelineEntry.mk "2029-2053" 1.8 "Yes"]).1).Pairwise (· < ·) ∧
      (buildTimeline white [] 2.4
        [TimelineEntry.mk "2023" 0.8 "No", TimelineEntry.mk "2029-2053" 1.8 "Yes"]).2.1 =
        columnAssoc 2.4 [TimelineEntry.mk "2023" 0.8 "No", TimelineEntry.mk "2029-2053" 1.8 "Yes"] ∧
      (buildTimeline white [] 2.4
        [TimelineEntry.mk "2023" 0.8 "No", TimelineEntry.mk "2029-2053" 1.8 "Yes"]).2.2 =
        2.4 + ([TimelineEntry.mk "2023" 0.8 "No", TimelineEntry.mk "2029-2053" 1.8 "Yes"].map
          (fun e => e.widthInches)).sum) :=
  ⟨by norm_num [List.forall_mem_cons], by decide,
    C5_columns_increasing_keyed_sum white _ 2.4
      (by norm_num [List.forall_mem_cons]) (by decide)⟩

/-! ### Row stacker properties -/

theorem rowBands_map_snd (rs : List RowRec) : ∀ t : ℚ,
    (rowBands t rs).map Prod.snd = rs.map (fun r => r.rowHeight) := by
  induction rs with
  | nil => simp [rowBands]
  | cons r rs ih => intro t; simp [rowBands, ih (t + r.rowHeight)]

theorem rowBands_chain (rs : List RowRec) : ∀ t : ℚ,
    List.Chain' (fun a b : ℚ × ℚ => a.1 + a.2 = b.1) (rowBands t rs) := by
  induction rs with
  | nil => simp [rowBands]
  | cons r rs ih =>
    intro t
    cases rs with
    | nil => simp [rowBands]
    | cons r' rs' =>
      exact List.Chain'.cons (by simp [rowBands]) (ih (t + r.rowHeight))

theorem gridBgRects_append (l1 l2 : List DrawCmd) :
    gridBgRects (l1 ++ l2) = gridBgRects l1 ++ gridBgRects l2 := by
  simp [gridBgRects]

theorem gridBgRects_milestone (c : Colors) (positions : List (String × ℚ))
    (top : ℚ) (m : Milestone) : gridBgRects (milestoneCmds c positions top m) = [] := by
  unfold milestoneCmds
  cases placeMilestoneX positions m.year <;> simp [gridBgRects]

theorem gridBgRects_stcCell (n : RGB) (lbl : String) (t h : ℚ) :
    gridBgRects (stcCellCmds n lbl t h) = [] := by
  have : (0 : ℚ) ≠ leftMargin := by norm_num [leftMargin]
  simp [stcCellCmds, gridBgRects, this]

theorem gridBgRects_stcClose (c : Colors) (st : StcState) (r : RowRec) :
    gridBgRects (stcCloseCmds c st r) = [] := by
  unfold stcCloseCmds
  split
  · rfl
  · split
    · split
      · exact gridBgRects_stcCell c.navy _ _ _
      · rfl
    · rfl

theorem gridBgRects_rowMilestones (c : Colors) (positions : List (String × ℚ))
    (milestones : List Milestone) (top : ℚ) (r : RowRec) :
    gridBgRects (rowMilestoneCmds c positions milestones top r) = [] := by
  unfold rowMilestoneCmds gridBgRects
  rw [List.filterMap_flatMap]
  refine List.flatMap_eq_nil_iff.mpr ?_
  intro m _
  exact gridBgRects_milestone c positions top m

theorem gridBgRects_gridlines (positions : List (String × ℚ)) (top h : ℚ)
    (hpos : ∀ p ∈ positions, p.2 ≠ leftMargin) :
    gridBgRects (positions.map (fun p =>
      DrawCmd.rect p.2 top (1 / 72) h (some gridGray) none)) = [] := by
  unfold gridBgRects
  rw [List.filterMap_map]
  refine List.filterMap_eq_nil_iff.mpr ?_
  intro p hp
  simp [hpos p hp]

theorem processRows_final (c : Colors) (positions : List (String × ℚ))
    (tgw : ℚ) (ms : List Milestone) (rs : List RowRec) : ∀ (top : ℚ) (st : StcState),
    (processRows c positions tgw ms top st rs).2.1 =
      top + (rs.map (fun r => r.rowHeight)).sum := by
  induction rs with
  | nil => intro top st; simp [processRows]
  | cons r rs ih =>
    intro top st
    simp only [processRows, List.map_cons, List.sum_cons]
    rw [ih]
    ring

theorem processRows_gridBg (c : Colors) (positions : List (String × ℚ))
    (tgw : ℚ) (ms : List Milestone) (rs : List RowRec)
    (hpos : ∀ p ∈ positions, p.2 ≠ leftMargin) : ∀ (top : ℚ) (st : StcState),
    gridBgRects (processRows c positions tgw ms top st rs).1 = rowBands top rs := by
  induction rs with
  | nil => intro top st; simp [processRows, gridBgRects, rowBands]
  | cons r rs ih =>
    intro top st
    have hfta : stcWidth ≠ leftMargin := by norm_num [stcWidth, leftMargin]
    simp only [processRows, rowBands]
    rw [gridBgRects_append, gridBgRects_append, gridBgRects_append,
      gridBgRects_append, gridBgRects_stcClose, gridBgRects_rowMilestones,
      gridBgRects_gridlines positions top r.rowHeight hpos,
      ih (top + r.rowHeight) (stcStep st top r)]
    simp [gridBgRects, hfta]

/-- C6: within one goal block the vertical cursor advances by exactly each
row's height in declared order: the grid-background rectangles form the
bands (top, height) with each top equal to the previous top plus the
previous height (no gaps or overlaps), the emitted heights are the input
heights in order, and the final cursor is the start plus their sum.  The
hypothesis only rules out a timeline column drawn exactly at the left
margin, so the background rects are characterized by their left offset. -/
theorem C6_vertical_cursor (c : Colors) (positions : List (String × ℚ))
    (tgw : ℚ) (ms : List Milestone) (rs : List RowRec) (top : ℚ) (st : StcState)
    (hpos : ∀ p ∈ positions, p.2 ≠ leftMargin) :
    gridBgRects (processRows c positions tgw ms top st rs).1 = rowBands top rs ∧
    (gridBgRects (processRows c positions tgw ms top st rs).1).map Prod.snd =
      rs.map (fun r => r.rowHeight) ∧
    (processRows c positions tgw ms top st rs).2.1 =
      top + (rs.map (fun r => r.rowHeight)).sum ∧
    List.Chain' (fun a b : ℚ × ℚ => a.1 + a.2 = b.1)
      (gridBgRects (processRows c positions tgw ms top st rs).1) := by
  have h1 := processRows_gridBg c positions tgw ms rs hpos top st
  refine ⟨h1, ?_, processRows_final c positions tgw ms rs top st, ?_⟩
  · rw [h1, rowBands_map_snd]
  · rw [h1]; exact rowBands_chain rs top

/-- Witness for C6: a two-row block with heights 0.6 and 0.4. -/
theorem C6_witness :
    (∀ p ∈ [("2023", (2.4 : ℚ))], p.2 ≠ leftMargin) ∧
    (gridBgRects (processRows (colorsOf []) [("2023", (2.4 : ℚ))] 0.8 []
        1.25 ⟨none, 1.25, 0⟩
        [RowRec.mk 1 "A" "F1" "Pink" 1 0.6, RowRec.mk 2 "A" "F2" "Pink" 1 0.4]).1 =
      rowBands 1.25
        [RowRec.mk 1 "A" "F1" "Pink" 1 0.6, RowRec.mk 2 "A" "F2" "Pink" 1 0.4] ∧
      (gridBgRects (processRows (colorsOf []) [("2023", (2.4 : ℚ))] 0.8 []
          1.25 ⟨none, 1.25, 0⟩
          [RowRec.mk 1 "A" "F1" "Pink" 1 0.6, RowRec.mk 2 "A" "F2" "Pink" 1 0.4]).1).map Prod.snd =
        [RowRec.mk 1 "A" "F1" "Pink" 1 0.6, RowRec.mk 2 "A" "F2" "Pink" 1 0.4].map
          (fun r => r.rowHeight) ∧
      (processRows (colorsOf []) [("2023", (2.4 : ℚ))] 0.8 [] 1.25 ⟨none, 1.25, 0⟩
          [RowRec.mk 1 "A" "F1" "Pink" 1 0.6, RowRec.mk 2 "A" "F2" "Pink" 1 0.4]).2.1 =
        1.25 + ([RowRec.mk 1 "A" "F1" "Pink" 1 0.6, RowRec.mk 2 "A" "F2" "Pink" 1 0.4].map
          (fun r => r.rowHeight)).sum ∧
      List.Chain' (fun a b : ℚ × ℚ => a.1 + a.2 = b.1)
        (gridBgRects (processRows (colorsOf []) [("2023", (2.4 : ℚ))] 0.8 []
          1.25 ⟨none, 1.25, 0⟩
          [RowRec.mk 1 "A" "F1" "Pink" 1 0.6, RowRec.mk 2 "A" "F2" "Pink" 1 0.4]).1)) :=
  ⟨by norm_num [List.forall_mem_cons, leftMargin],
    C6_vertical_cursor (colorsOf []) [("2023", (2.4 : ℚ))] 0.8 [] _ 1.25 ⟨none, 1.25, 0⟩
      (by norm_num [List.forall_mem_cons, leftMargin])⟩

/-! ### Milestone placer properties -/

/-- C3: a milestone whose year is an exact `year_positions` key is drawn at
that column's x plus the fixed `Inches(0.15)` inset — an x independent of
`verticalOffsetInches` — and at y equal to the row top plus
`verticalOffsetInches`.  (The row loop invokes `milestoneCmds` with `top`
equal to the containing row's top.) -/
theorem C3_exact_year_placement (c : Colors) (positions : List (String × ℚ))
    (top px : ℚ) (m : Milestone)
    (hpx : dictGet positions (toString m.year) = some px) :
    milestoneCmds c positions top m =
      [DrawCmd.triangle (px + 0.15) (top + m.verticalOffset) 0.12 c.milestone,
       DrawCmd.text (px + 0.15 + 0.14) (top + m.verticalOffset) 0.9 0.15 m.text
         7 false false (some (if isCriticalMs m then c.critical else gray33))
         none Align.left] ∧
    (∀ v : ℚ, triangleLefts (milestoneCmds c positions top
      { m with verticalOffset := v }) = [px + 0.15]) ∧
    triangleTops (milestoneCmds c positions top m) = [top + m.verticalOffset] := by
  refine ⟨?_, ?_, ?_⟩ <;>
    simp [milestoneCmds, placeMilestoneX, hpx, triangleLefts, triangleTops]

/-- Witness for C3 at a concrete exact-match milestone. -/
theorem C3_witness :
    dictGet [("2024", (3.2 : ℚ))] (toString (Milestone.mk 1 2024 0.15 "t" "No").year) =
      some 3.2 ∧
    (milestoneCmds (colorsOf []) [("2024", (3.2 : ℚ))] 1.25 ⟨1, 2024, 0.15, "t", "No"⟩ =
      [DrawCmd.triangle ((3.2 : ℚ) + 0.15) (1.25 + (Milestone.mk 1 2024 0.15 "t" "No").verticalOffset)
         0.12 (colorsOf []).milestone,
       DrawCmd.text ((3.2 : ℚ) + 0.15 + 0.14)
         (1.25 + (Milestone.mk 1 2024 0.15 "t" "No").verticalOffset) 0.9 0.15
         (Milestone.mk 1 2024 0.15 "t" "No").text 7 false false
         (some (if isCriticalMs ⟨1, 2024, 0.15, "t", "No"⟩ then (colorsOf []).critical
           else gray33)) none Align.left] ∧
      (∀ v : ℚ, triangleLefts (milestoneCmds (colorsOf []) [("2024", (3.2 : ℚ))] 1.25
        { Milestone.mk 1 2024 0.15 "t" "No" with verticalOffset := v }) = [(3.2 : ℚ) + 0.15]) ∧
      triangleTops (milestoneCmds (colorsOf []) [("2024", (3.2 : ℚ))] 1.25
        ⟨1, 2024, 0.15, "t", "No"⟩) =
        [1.25 + (Milestone.mk 1 2024 0.15 "t" "No").verticalOffset]) :=
  ⟨rfl, C3_exact_year_placement (colorsOf []) [("2024", (3.2 : ℚ))] 1.25 3.2
    ⟨1, 2024, 0.15, "t", "No"⟩ rfl⟩

/-- Counterexample to C2 as stated: with the flagged overflow column
"2027-2040", the spec's threshold is 2027, so the milestone year 2028
(no exact key) should be placed at the overflow x; the source instead
compares against the constant 2029 and silently skips it. -/
theorem C2_counterexample :
    specOverflowThresholdYear timelineC2 = 2027 ∧
    specOverflowThresholdYear timelineC2 ≤ 2028 ∧
    placeMilestoneX (buildTimeline white [] 2.4 timelineC2).2.1 2028 = none := by
  refine ⟨by decide, by decide, ?_⟩
  rfl

/-- C2 as amended: for a milestone year with no exact column key, the x
falls back to the overflow rule exactly when `year >= 2029` (a hard-coded
constant, not the flagged column's leading year), the overflow x being the
position keyed "2029" — or the last recorded position when that key is
absent — plus the fixed `Inches(0.3)` inset. -/
theorem C2_overflow_rule_2029 (positions : List (String × ℚ)) (year : ℤ)
    (hnone : dictGet positions (toString year) = none) :
    placeMilestoneX positions year =
      if 2029 ≤ year then
        some ((dictGet positions "2029").getD (lastPosition positions) + 0.3)
      else none := by
  simp [placeMilestoneX, hnone]

/-- Witness for the amended C2: year 2031 is past the single declared
column 2023, and resolves to the overflow x rather than failing. -/
theorem C2_witness :
    dictGet [("2023", (2.4 : ℚ))] (toString (2031 : ℤ)) = none ∧
    placeMilestoneX [("2023", (2.4 : ℚ))] 2031 =
      (if (2029 : ℤ) ≤ 2031 then
        some ((dictGet [("2023", (2.4 : ℚ))] "2029").getD
          (lastPosition [("2023", (2.4 : ℚ))]) + 0.3)
      else none) :=
  ⟨rfl, C2_overflow_rule_2029 [("2023", (2.4 : ℚ))] 2031 rfl⟩

/-! ### Background color fallback -/

/-- C10: a row whose lower-cased background color key is none of "pink",
"purple", "yellow" silently falls back to the pink background: the lookup
returns pink and the row loop draws that row's grid background filled with
pink. -/
theorem C10_unknown_bg_defaults_pink (c : Colors) (positions : List (String × ℚ))
    (tgw : ℚ) (ms : List Milestone) (top : ℚ) (st : StcState) (r : RowRec)
    (hbg : ¬ (lowerStr r.backgroundColor = "pink" ∨
      lowerStr r.backgroundColor = "purple" ∨
      lowerStr r.backgroundColor = "yellow")) :
    bgColorMap c (lowerStr r.backgroundColor) = c.pink ∧
    DrawCmd.rect leftMargin top (tgw + 1) r.rowHeight (some c.pink) none ∈
      (processRows c positions tgw ms top st [r]).1 := by
  push_neg at hbg
  obtain ⟨h1, h2, h3⟩ := hbg
  have hmap : bgColorMap c (lowerStr r.backgroundColor) = c.pink := by
    simp [bgColorMap, h1, h2, h3]
  refine ⟨hmap, ?_⟩
  simp [processRows, hmap, List.mem_append, List.mem_cons]

/-- Witness for C10 with the unknown key "Green". -/
theorem C10_witness :
    (¬ (lowerStr (RowRec.mk 1 "A" "F" "Green" 1 0.6).backgroundColor = "pink" ∨
      lowerStr (RowRec.mk 1 "A" "F" "Green" 1 0.6).backgroundColor = "purple" ∨
      lowerStr (RowRec.mk 1 "A" "F" "Green" 1 0.6).backgroundColor = "yellow")) ∧
    (bgColorMap (colorsOf []) (lowerStr (RowRec.mk 1 "A" "F" "Green" 1 0.6).backgroundColor) =
      (colorsOf []).pink ∧
    DrawCmd.rect leftMargin 0.95 ((0.8 : ℚ) + 1) (RowRec.mk 1 "A" "F" "Green" 1 0.6).rowHeight
        (some (colorsOf []).pink) none ∈
      (processRows (colorsOf []) [] 0.8 [] 0.95 ⟨none, 0.95, 0⟩
        [RowRec.mk 1 "A" "F" "Green" 1 0.6]).1) :=
  ⟨by decide,
    C10_unknown_bg_defaults_pink (colorsOf []) [] 0.8 [] 0.95 ⟨none, 0.95, 0⟩
      (RowRec.mk 1 "A" "F" "Green" 1 0.6) (by decide)⟩

/-! ### Determinism and dead-field properties -/

/-- C8: the layout pass is a pure function of the immutable input: two runs
on the same data produce the identical draw-command sequence.  The source
reads no clock, randomness, or other ambient state, so its embedding is a
function and the two components of `runTwice` coincide. -/
theorem C8_deterministic (data : RoadmapData) :
    (runTwice data).1 = (runTwice data).2 := rfl

theorem buildTimeline_proj_congr (n : RGB) (tl tl' : List TimelineEntry)
    (h : tl'.map (fun e => (e.year, e.widthInches)) =
      tl.map (fun e => (e.year, e.widthInches))) :
    ∀ (d : List (String × ℚ)) (x : ℚ),
      buildTimeline n d x tl' = buildTimeline n d x tl := by
  induction tl generalizing tl' with
  | nil =>
    cases tl' with
    | nil => intro d x; rfl
    | cons e' es' => simp at h
  | cons e es ih =>
    cases tl' with
    | nil => simp at h
    | cons e' es' =>
      simp only [List.map_cons, List.cons.injEq, Prod.mk.injEq] at h
      obtain ⟨⟨hy, hw⟩, hrest⟩ := h
      intro d x
      have := ih es' hrest (dictInsert d (leadingYear e.year) x) (x + e.widthInches)
      simp [buildTimeline, hy, hw, this]

/-- C9: the layout never reads `Is Last Column`: replacing the timeline by
any entry list with the same labels and widths (any overflow flags) leaves
the emitted draw-command sequence unchanged — the overflow decision comes
from the hard-coded year 2029 (see `placeMilestoneX`), never the flag. -/
theorem C9_overflow_flag_never_read (data : RoadmapData) (tl' : List TimelineEntry)
    (h : tl'.map (fun e => (e.year, e.widthInches)) =
      data.timeline.map (fun e => (e.year, e.widthInches))) :
    create_roadmap_from_data { data with timeline := tl' } =
      create_roadmap_from_data data := by
  obtain ⟨s, tl, gs, rws, ms, ucs⟩ := data
  simp only [create_roadmap_from_data]
  rw [buildTimeline_proj_congr _ tl tl' h]

/-- Witness for C9: flipping the flag of the only column changes nothing. -/
theorem C9_witness :
    ([TimelineEntry.mk "2023" 0.8 "Yes"].map (fun e => (e.year, e.widthInches)) =
      (RoadmapData.mk [] [⟨"2023", 0.8, "No"⟩] [] [] [] []).timeline.map
        (fun e => (e.year, e.widthInches))) ∧
    create_roadmap_from_data
        { RoadmapData.mk [] [⟨"2023", 0.8, "No"⟩] [] [] [] [] with
          timeline := [TimelineEntry.mk "2023" 0.8 "Yes"] } =
      create_roadmap_from_data (RoadmapData.mk [] [⟨"2023", 0.8, "No"⟩] [] [] [] []) :=
  ⟨rfl, C9_overflow_flag_never_read (RoadmapData.mk [] [⟨"2023", 0.8, "No"⟩] [] [] [] [])
    [TimelineEntry.mk "2023" 0.8 "Yes"] rfl⟩

/-! ### Unplaceable milestones are dropped without a trace -/

theorem rowMilestoneCmds_append (c : Colors) (positions : List (String × ℚ))
    (ms1 ms2 : List Milestone) (top : ℚ) (r : RowRec) :
    rowMilestoneCmds c positions (ms1 ++ ms2) top r =
      rowMilestoneCmds c positions ms1 top r ++
        rowMilestoneCmds c positions ms2 top r := by
  simp [rowMilestoneCmds, List.filter_append]

theorem rowMilestoneCmds_skip (c : Colors) (positions : List (String × ℚ))
    (m : Milestone) (top : ℚ) (r : RowRec)
    (h : placeMilestoneX positions m.year = none ∨ m.rowId ≠ r.rowId) :
    rowMilestoneCmds c positions [m] top r = [] := by
  rcases h with h | h
  · unfold rowMilestoneCmds
    refine List.flatMap_eq_nil_iff.mpr ?_
    intro x hx
    have hxm : x = m := by
      have := List.mem_of_mem_filter hx
      simpa using this
    subst hxm
    unfold milestoneCmds
    rw [h]
  · simp [rowMilestoneCmds, List.filter_cons, h]

theorem processRows_skip (c : Colors) (positions : List (String × ℚ))
    (tgw : ℚ) (ms : List Milestone) (m : Milestone) :
    ∀ rs : List RowRec,
    (placeMilestoneX positions m.year = none ∨ ∀ r ∈ rs, r.rowId ≠ m.rowId) →
    ∀ (top : ℚ) (st : StcState),
    processRows c positions tgw (ms ++ [m]) top st rs =
      processRows c positions tgw ms top st rs := by
  intro rs
  induction rs with
  | nil => intro _ top st; rfl
  | cons r rs ih =>
    intro h top st
    have hr : placeMilestoneX positions m.year = none ∨ m.rowId ≠ r.rowId := by
      rcases h with h | h
      · exact Or.inl h
      · exact Or.inr (Ne.symm (h r (by simp)))
    have htail : placeMilestoneX positions m.year = none ∨
        ∀ r' ∈ rs, r'.rowId ≠ m.rowId := by
      rcases h with h | h
      · exact Or.inl h
      · exact Or.inr (fun r' hr' => h r' (by simp [hr']))
    simp only [processRows]
    rw [rowMilestoneCmds_append, rowMilestoneCmds_skip c positions m top r hr,
      List.append_nil, ih htail (top + r.rowHeight) (stcStep st top r)]

theorem processGoals_skip (c : Colors) (positions : List (String × ℚ))
    (tgw : ℚ) (rows : List RowRec) (ms : List Milestone) (m : Milestone)
    (h : placeMilestoneX positions m.year = none ∨ ∀ r ∈ rows, r.rowId ≠ m.rowId) :
    ∀ (top : ℚ) (goals : List Goal),
    processGoals c positions tgw rows (ms ++ [m]) top goals =
      processGoals c positions tgw rows ms top goals := by
  intro top goals
  induction goals generalizing top with
  | nil => rfl
  | cons g gs ih =>
    have hg : placeMilestoneX positions m.year = none ∨
        ∀ r ∈ rows.filter (fun r => r.goalId = g.goalId), r.rowId ≠ m.rowId := by
      rcases h with h | h
      · exact Or.inl h
      · exact Or.inr (fun r hr => h r (List.mem_of_mem_filter hr))
    simp only [processGoals]
    rw [processRows_skip c positions tgw ms m _ hg, ih]

/-- C4 as amended: a milestone whose year is neither an exact column key
nor `>= 2029` (e.g. before the earliest column), or whose row id matches no
row, is silently dropped: the emitted draw-command sequence is identical to
the one for the same input without that milestone.  No warning is recorded
anywhere — the source returns only the presentation, with no warnings
list. -/
theorem C4_unplaceable_silently_skipped (data : RoadmapData) (m : Milestone)
    (h : placeMilestoneX (buildTimeline (colorsOf data.settings).navy []
        (leftMargin + 1) data.timeline).2.1 m.year = none ∨
      ∀ r ∈ data.rows, r.rowId ≠ m.rowId) :
    create_roadmap_from_data { data with milestones := data.milestones ++ [m] } =
      create_roadmap_from_data data := by
  obtain ⟨s, tl, gs, rws, ms, ucs⟩ := data
  simp only [create_roadmap_from_data]
  rw [processGoals_skip _ _ _ _ ms m h]

/-- Counterexample to C4 as stated: `dataC4m` contains the milestone
`msBefore` with year 1999 (before the earliest column 2023, hence
unplaceable), yet the layout output is exactly the output for `dataC4`
without it — the returned value carries no warnings list and no warning
for the skipped milestone can be recorded anywhere in it. -/
theorem C4_counterexample :
    dataC4m.milestones = dataC4.milestones ++ [msBefore] ∧
    placeMilestoneX (buildTimeline (colorsOf dataC4.settings).navy []
      (leftMargin + 1) dataC4.timeline).2.1 msBefore.year = none ∧
    create_roadmap_from_data dataC4m = create_roadmap_from_data dataC4 := by
  refine ⟨rfl, rfl, ?_⟩
  show create_roadmap_from_data
    { dataC4 with milestones := dataC4.milestones ++ [msBefore] } =
    create_roadmap_from_data dataC4
  simp only [create_roadmap_from_data, dataC4]
  rw [processGoals_skip _ ((buildTimeline (colorsOf []).navy [] (leftMargin + 1)
    [⟨"2023", 0.8, "No"⟩]).2.1) _ _ _ msBefore (Or.inl rfl)]

/-- Witness for C4 with a dangling row reference: milestone row id 7
matches no row of `dataC4`. -/
theorem C4_witness :
    (placeMilestoneX (buildTimeline (colorsOf dataC4.settings).navy []
        (leftMargin + 1) dataC4.timeline).2.1 (Milestone.mk 7 2023 0.1 "x" "No").year = none ∨
      ∀ r ∈ dataC4.rows, r.rowId ≠ (Milestone.mk 7 2023 0.1 "x" "No").rowId) ∧
    create_roadmap_from_data
        { dataC4 with milestones := dataC4.milestones ++ [⟨7, 2023, 0.1, "x", "No"⟩] } =
      create_roadmap_from_data dataC4 :=
  ⟨Or.inr (by decide),
    C4_unplaceable_silently_skipped dataC4 ⟨7, 2023, 0.1, "x", "No"⟩ (Or.inr (by decide))⟩

/-! ### No structural validation -/

/-- Counterexample to C7 as stated: `dataC7` violates every listed
structural invariant (zero-width column, duplicate goal id, row with an
unknown goal id, overflow-flagged column not last), yet the layout neither
fails nor withholds output: it emits a command sequence starting with the
background rectangle. -/
theorem C7_counterexample :
    (create_roadmap_from_data dataC7).head? =
      some (DrawCmd.rect 0 0 slideWidth slideHeight (some bgBeige) none) ∧
    create_roadmap_from_data dataC7 ≠ [] := by
  exact ⟨rfl, by simp only [create_roadmap_from_data]; exact List.cons_ne_nil _ _⟩

/-- C7 as amended: the layout pass performs no structural validation at
all — for every input, well-formed or not, it emits a draw-command
sequence beginning with the slide background rectangle (there is no
failure path and no `InvalidLayoutInput`). -/
theorem C7_no_validation (data : RoadmapData) :
    (create_roadmap_from_data data).head? =
      some (DrawCmd.rect 0 0 slideWidth slideHeight (some bgBeige) none) ∧
    create_roadmap_from_data data ≠ [] := by
  exact ⟨rfl, by simp only [create_roadmap_from_data]; exact List.cons_ne_nil _ _⟩

/-! ### The STC merged-cell height bug -/

/-- C1, failing input: in `rowsC1` the run of two "A" rows has heights
0.6 + 0.4 = 1.0 and the final "B" run has height 0.3; the goal loop instead
emits the "A" cell with height 0.3 * 2 = 0.6 (the run-BREAKING row's height
times the run length) and the "B" cell with height 0.6 * 1 = 0.6 (the goal
block's FIRST row's height times the run length). -/
theorem C1_stc_height_bug :
    stcCellRects (processGoals (colorsOf []) [("2023", 2.4)] 0.8 rowsC1 []
        0.95 [⟨1, "G"⟩]).1 = [(1.25, 0.6), (2.25, 0.6)] ∧
    (0.6 : ℚ) ≠ 0.6 + 0.4 ∧ (0.6 : ℚ) ≠ 0.3 := by
  refine ⟨?_, by norm_num, by norm_num⟩
  simp [processGoals, processRows, rowsC1, stcCloseCmds, stcStep,
    stcCellCmds, rowMilestoneCmds]
  norm_num [stcCellRects, stcWidth, leftMargin, List.filterMap_cons,
    List.filterMap_append]

end Roadmap
